import Mathlib

/-!
Verification of the detection-result post-processing pipeline of the Agro.ai
repository: the catalog-based interpreter (`backend/yolo_inference.py`,
`YOLODetector`) and the area-based severity variant
(`CNN_YOLO_MODEL/inference.py`, `PlantDiseaseDetector`).

The external detector (YOLO) is abstracted away: the interpreter is modelled
as a function of the per-box results (confidence, class id, coordinates)
returned by the detector, with floats embedded as rationals and Python
dictionaries embedded as total lookup functions returning `Option`.
-/

namespace Agro

/-- A raw detector box as consumed by `YOLODetector.detect`: the per-box
confidence score (`boxes.conf[i]`) and the integer class id (`boxes.cls[i]`).
Confidences are modelled as rationals. -/
structure Box where
  conf : ℚ
  cls : Nat
deriving DecidableEq, Repr

/-- Embedding of Python `str.lower()` (ASCII lowercasing, applied
character-wise). -/
def pyLower (s : String) : String :=
  String.mk (s.data.map Char.toLower)

/-- `YOLODetector._map_class_to_disease`: the static `class_mapping` dict
from class id to disease name, with `.get(class_id, 'unknown_disease')`
as the out-of-range default. -/
def map_class_to_disease (class_id : Nat) : String :=
  match class_id with
  | 0 => "healthy"
  | 1 => "early_blight"
  | 2 => "late_blight"
  | 3 => "leaf_mold"
  | 4 => "septoria_leaf_spot"
  | 5 => "bacterial_spot"
  | 6 => "target_spot"
  | 7 => "mosaic_virus"
  | 8 => "yellow_leaf_curl_virus"
  | _ => "unknown_disease"

/-- `YOLODetector.disease_info`: the static catalog mapping a lowercase
disease name to its (treatment, severity) pair; `none` models a missing key. -/
def disease_info (name : String) : Option (String × String) :=
  if name = "healthy" then
    some ("No treatment needed. Continue regular plant care.", "None")
  else if name = "early_blight" then
    some ("Apply fungicide containing chlorothalonil or copper. Remove affected leaves.", "Medium")
  else if name = "late_blight" then
    some ("Apply fungicide immediately. Remove and destroy affected plants.", "High")
  else if name = "leaf_mold" then
    some ("Improve air circulation. Apply fungicide if severe.", "Low")
  else if name = "septoria_leaf_spot" then
    some ("Remove affected leaves. Apply fungicide preventively.", "Medium")
  else if name = "bacterial_spot" then
    some ("Apply copper-based bactericide. Avoid overhead watering.", "Medium")
  else if name = "target_spot" then
    some ("Apply fungicide and improve plant spacing for air circulation.", "Medium")
  else if name = "mosaic_virus" then
    some ("No cure available. Remove infected plants to prevent spread.", "High")
  else if name = "yellow_leaf_curl_virus" then
    some ("Control whitefly vectors. Remove infected plants.", "High")
  else none

/-- The dictionary returned by `YOLODetector.detect` and
`YOLODetector._create_error_result`, with its five result keys plus the
optional `error` key of the error path. -/
structure DRecord where
  disease_detected : Bool
  confidence : ℚ
  disease_type : Option String
  severity_level : Option String
  treatment_recommendation : String
  error : Option String
deriving DecidableEq, Repr

/-- `np.argmax` over the confidence array, returning the box at the argmax
index: the first box in input order whose confidence is maximal (later boxes
replace the current choice only when strictly greater). `none` on the empty
list (the code guards that case with `len(results[0].boxes) > 0`). -/
def selectBox : List Box → Option Box
  | [] => none
  | b :: bs =>
    match selectBox bs with
    | none => some b
    | some c => if b.conf < c.conf then some c else some b

/-- `YOLODetector._create_error_result`. -/
def create_error_result (error_message : String) : DRecord :=
  { disease_detected := false
    confidence := 0
    disease_type := none
    severity_level := none
    treatment_recommendation := "Detection failed: " ++ error_message
    error := some error_message }

/-- The result-interpretation body of `YOLODetector.detect` (lines 105-143),
as a function of the detector's box list. -/
def interpret (boxes : List Box) : DRecord :=
  match selectBox boxes with
  | some best =>
    let max_confidence := best.conf
    let disease_name := map_class_to_disease best.cls
    let is_diseased : Bool := pyLower disease_name != "healthy"
    let info := disease_info (pyLower disease_name)
    let treatment := (info.map Prod.fst).getD "Consult agricultural expert for treatment advice."
    let severity := (info.map Prod.snd).getD "Unknown"
    { disease_detected := is_diseased
      confidence := max_confidence
      disease_type := if is_diseased then some disease_name else none
      severity_level := if is_diseased then some severity else none
      treatment_recommendation :=
        if is_diseased then treatment else "Plant appears healthy. Continue regular care."
      error := none }
  | none =>
    { disease_detected := false
      confidence := 95 / 100
      disease_type := none
      severity_level := none
      treatment_recommendation := "Plant appears healthy. Continue regular care."
      error := none }

/-- `YOLODetector.detect` with the image/model stage abstracted:
`Except.error msg` stands for a preprocessing failure or an exception raised
during inference (both reach `_create_error_result`); `Except.ok boxes` for a
successful inference with its (possibly empty) box list. -/
def detect (input : Except String (List Box)) : DRecord :=
  match input with
  | .error msg => create_error_result msg
  | .ok boxes => interpret boxes

/-! ### Area-based variant (`CNN_YOLO_MODEL/inference.py`) -/

/-- A raw detector box as consumed by `PlantDiseaseDetector.detect_disease`:
`xyxy` corner coordinates, confidence, and class id. -/
structure ABox where
  x1 : ℚ
  y1 : ℚ
  x2 : ℚ
  y2 : ℚ
  conf : ℚ
  cls : Nat
deriving DecidableEq, Repr

/-- `PlantDiseaseDetector.class_names`. -/
def class_names : List String :=
  ["healthy", "bacterial_spot", "early_blight", "late_blight",
   "leaf_mold", "septoria_leaf_spot", "spider_mites", "target_spot",
   "mosaic_virus", "yellow_leaf_curl_virus"]

/-- Class-name resolution of `detect_disease` (lines 96-99): list index when
in range, f-string fallback otherwise. -/
def className (class_id : Nat) : String :=
  if h : class_id < class_names.length then class_names.get ⟨class_id, h⟩
  else "class_" ++ toString class_id

/-- `severity_percentage = (bbox_area / image_area) * 100` with
`bbox_area = (x2 - x1) * (y2 - y1)` and `image_area = height * width`. -/
def severity_percentage (b : ABox) (imgH imgW : ℚ) : ℚ :=
  (b.x2 - b.x1) * (b.y2 - b.y1) / (imgH * imgW) * 100

/-- The severity tiers of `detect_disease` (lines 107-112). -/
def severity_level_of (p : ℚ) : String :=
  if p < 10 then "Low" else if p < 25 then "Medium" else "High"

/-- One entry of the `detections` list built by `detect_disease`
(the `bbox` list field is carried by the originating `ABox`). -/
structure Detection where
  class_name : String
  confidence : ℚ
  severity_percentage : ℚ
  severity_level : String
  is_diseased : Bool
deriving DecidableEq, Repr

/-- The per-box loop body of `detect_disease` (lines 89-123). -/
def mkDetection (b : ABox) (imgH imgW : ℚ) : Detection :=
  let class_name := className b.cls
  let p := severity_percentage b imgH imgW
  { class_name := class_name
    confidence := b.conf
    severity_percentage := p
    severity_level := severity_level_of p
    is_diseased := class_name != "healthy" }

/-- The whole detection loop of `detect_disease`. -/
def detectAll (bs : List ABox) (imgH imgW : ℚ) : List Detection :=
  bs.map (fun b => mkDetection b imgH imgW)

/-! ### Helper lemmas -/

theorem selectBox_eq_none {l : List Box} : selectBox l = none ↔ l = [] := by
  cases l with
  | nil => simp [selectBox]
  | cons b bs =>
    simp only [selectBox]
    constructor
    · intro h
      exfalso
      cases hbs : selectBox bs with
      | none =>
        rw [hbs] at h
        exact Option.noConfusion h
      | some c =>
        rw [hbs] at h
        have h' : (if b.conf < c.conf then some c else some b) = none := h
        by_cases hlt : b.conf < c.conf
        · rw [if_pos hlt] at h'
          exact Option.noConfusion h'
        · rw [if_neg hlt] at h'
          exact Option.noConfusion h'
    · intro h
      exact absurd h (List.cons_ne_nil b bs)

theorem selectBox_max {l : List Box} {b : Box} (h : selectBox l = some b) :
    ∀ x ∈ l, x.conf ≤ b.conf := by
  induction l generalizing b with
  | nil => simp [selectBox] at h
  | cons a bs ih =>
    simp only [selectBox] at h
    cases hbs : selectBox bs with
    | none =>
      rw [hbs] at h
      obtain rfl : a = b := by simpa using h
      have : bs = [] := selectBox_eq_none.mp hbs
      subst this
      simp
    | some c =>
      rw [hbs] at h
      have h' : (if a.conf < c.conf then some c else some a) = some b := h
      by_cases hlt : a.conf < c.conf
      · rw [if_pos hlt] at h'
        obtain rfl : c = b := by simpa using h'
        intro x hx
        rcases List.mem_cons.mp hx with rfl | hx
        · exact le_of_lt hlt
        · exact ih hbs x hx
      · rw [if_neg hlt] at h'
        obtain rfl : a = b := by simpa using h'
        intro x hx
        rcases List.mem_cons.mp hx with rfl | hx
        · exact le_refl _
        · exact le_trans (ih hbs x hx) (not_lt.mp hlt)

theorem selectBox_first {l : List Box} {b : Box} (h : selectBox l = some b) :
    ∃ l₁ l₂, l = l₁ ++ b :: l₂ ∧ ∀ x ∈ l₁, x.conf < b.conf := by
  induction l generalizing b with
  | nil => simp [selectBox] at h
  | cons a bs ih =>
    simp only [selectBox] at h
    cases hbs : selectBox bs with
    | none =>
      rw [hbs] at h
      obtain rfl : a = b := by simpa using h
      exact ⟨[], bs, rfl, by simp⟩
    | some c =>
      rw [hbs] at h
      have h' : (if a.conf < c.conf then some c else some a) = some b := h
      by_cases hlt : a.conf < c.conf
      · rw [if_pos hlt] at h'
        obtain rfl : c = b := by simpa using h'
        obtain ⟨l₁, l₂, rfl, hl₁⟩ := ih hbs
        refine ⟨a :: l₁, l₂, rfl, ?_⟩
        intro x hx
        rcases List.mem_cons.mp hx with rfl | hx
        · exact hlt
        · exact hl₁ x hx
      · rw [if_neg hlt] at h'
        obtain rfl : a = b := by simpa using h'
        exact ⟨[], bs, rfl, by simp⟩

theorem selectBox_mem {l : List Box} {b : Box} (h : selectBox l = some b) :
    b ∈ l := by
  obtain ⟨l₁, l₂, rfl, -⟩ := selectBox_first h
  simp

theorem map_class_to_disease_of_ge {n : Nat} (h : 9 ≤ n) :
    map_class_to_disease n = "unknown_disease" := by
  obtain ⟨k, rfl⟩ : ∃ k, n = k + 9 := ⟨n - 9, by omega⟩
  rfl

theorem class_prepend_ne_healthy (s : String) : ("class_" ++ s) ≠ "healthy" := by
  intro h
  have h2 := congrArg String.data h
  rw [String.data_append] at h2
  simp [String.data] at h2

theorem class_prepend_ne_unknown (s : String) :
    ("class_" ++ s) ≠ "unknown_disease" := by
  intro h
  have h2 := congrArg String.data h
  rw [String.data_append] at h2
  simp [String.data] at h2

theorem disease_info_snd_of_ne_healthy {s : String} (h : s ≠ "healthy") :
    ((disease_info s).map Prod.snd).getD "Unknown" = "Medium" ∨
    ((disease_info s).map Prod.snd).getD "Unknown" = "High" ∨
    ((disease_info s).map Prod.snd).getD "Unknown" = "Low" ∨
    ((disease_info s).map Prod.snd).getD "Unknown" = "Unknown" := by
  unfold disease_info
  split_ifs <;> simp_all

/-! ### Claims -/

/-- C1: for every non-empty box list, `detect` selects the box at the
`np.argmax` index of the confidence array: a box of maximal confidence that
is preceded in input order only by boxes of strictly smaller confidence (so
ties go to the first maximal box), and the returned record's `confidence`
field equals that box's confidence. -/
theorem argmax_first_of_maxima (boxes : List Box) (hne : boxes ≠ []) :
    ∃ best l₁ l₂,
      selectBox boxes = some best ∧
      boxes = l₁ ++ best :: l₂ ∧
      (∀ x ∈ boxes, x.conf ≤ best.conf) ∧
      (∀ x ∈ l₁, x.conf < best.conf) ∧
      (detect (Except.ok boxes)).confidence = best.conf := by
  cases hsel : selectBox boxes with
  | none => exact absurd (selectBox_eq_none.mp hsel) hne
  | some best =>
    obtain ⟨l₁, l₂, heq, hl₁⟩ := selectBox_first hsel
    exact ⟨best, l₁, l₂, rfl, heq, selectBox_max hsel, hl₁,
      by simp [detect, interpret, hsel]⟩

/-- Witness for C1 on a concrete list with a tied maximum: the box with
class id 2 (the first of the two boxes of confidence 9/10) is selected. -/
theorem argmax_first_of_maxima_witness :
    ∃ best l₁ l₂,
      selectBox [({ conf := 7/10, cls := 1 } : Box),
        { conf := 9/10, cls := 2 }, { conf := 9/10, cls := 3 }] = some best ∧
      [({ conf := 7/10, cls := 1 } : Box),
        { conf := 9/10, cls := 2 }, { conf := 9/10, cls := 3 }] = l₁ ++ best :: l₂ ∧
      (∀ x ∈ [({ conf := 7/10, cls := 1 } : Box),
        { conf := 9/10, cls := 2 }, { conf := 9/10, cls := 3 }], x.conf ≤ best.conf) ∧
      (∀ x ∈ l₁, x.conf < best.conf) ∧
      (detect (Except.ok [({ conf := 7/10, cls := 1 } : Box),
        { conf := 9/10, cls := 2 }, { conf := 9/10, cls := 3 }])).confidence = best.conf :=
  argmax_first_of_maxima _ (by simp)

/-- C2: on the empty box list, `detect` returns the healthy record with the
0.95 policy confidence, no disease type, no severity, and the generic
continue-regular-care message. -/
theorem empty_boxes_healthy :
    detect (Except.ok []) =
      { disease_detected := false
        confidence := 95 / 100
        disease_type := none
        severity_level := none
        treatment_recommendation := "Plant appears healthy. Continue regular care."
        error := none } :=
  rfl

/-- C6: every preprocessing failure or inference exception is converted to
the sentinel error record (disease_detected false, confidence 0, no disease
type, the Detection-failed message, and the error field), and `detect`
returns it rather than raising. -/
theorem error_sentinel (msg : String) :
    detect (Except.error msg) =
      { disease_detected := false
        confidence := 0
        disease_type := none
        severity_level := none
        treatment_recommendation := "Detection failed: " ++ msg
        error := some msg } :=
  rfl

/-- C7: whenever a box is selected, the `disease_detected` flag equals the
negation of the case-insensitive comparison of the mapped disease name with
"healthy" (the code lowercases the name before comparing). -/
theorem diseased_flag (boxes : List Box) (best : Box)
    (hsel : selectBox boxes = some best) :
    (detect (Except.ok boxes)).disease_detected
      = (pyLower (map_class_to_disease best.cls) != "healthy") := by
  simp [detect, interpret, hsel]

/-- Witness for C7 at a singleton list with class id 2 (late_blight). -/
theorem diseased_flag_witness :
    (detect (Except.ok [({ conf := 8/10, cls := 2 } : Box)])).disease_detected
      = (pyLower (map_class_to_disease 2) != "healthy") :=
  diseased_flag _ { conf := 8/10, cls := 2 } rfl

/-- C9: when the selected box has class id 0 (name "healthy"), `detect`
reports no disease, with the box's measured confidence, no disease type, no
severity, and the generic healthy-care message. -/
theorem healthy_class_detection (boxes : List Box) (best : Box)
    (hsel : selectBox boxes = some best) (hcls : best.cls = 0) :
    (detect (Except.ok boxes)).disease_detected = false ∧
    (detect (Except.ok boxes)).confidence = best.conf ∧
    (detect (Except.ok boxes)).disease_type = none ∧
    (detect (Except.ok boxes)).severity_level = none ∧
    (detect (Except.ok boxes)).treatment_recommendation
      = "Plant appears healthy. Continue regular care." := by
  have hname : map_class_to_disease best.cls = "healthy" := by
    rw [hcls]
    rfl
  have hlow : pyLower "healthy" = "healthy" := by decide
  simp [detect, interpret, hsel, hname, hlow]

/-- Witness for C9: a class-0 box of confidence 7/10 (in particular, the
reported confidence is the measured 7/10, not the 0.95 constant). -/
theorem healthy_class_detection_witness :
    (detect (Except.ok [({ conf := 7/10, cls := 0 } : Box)])).disease_detected = false ∧
    (detect (Except.ok [({ conf := 7/10, cls := 0 } : Box)])).confidence
      = ({ conf := 7/10, cls := 0 } : Box).conf ∧
    (detect (Except.ok [({ conf := 7/10, cls := 0 } : Box)])).disease_type = none ∧
    (detect (Except.ok [({ conf := 7/10, cls := 0 } : Box)])).severity_level = none ∧
    (detect (Except.ok [({ conf := 7/10, cls := 0 } : Box)])).treatment_recommendation
      = "Plant appears healthy. Continue regular care." :=
  healthy_class_detection _ _ rfl rfl

/-- C4: when the selected box's class id is outside the 0..8 mapping,
`detect` reports disease type "unknown_disease", the generic
consult-an-expert treatment, and severity "Unknown" (and, being a total
function, returns rather than raising). -/
theorem out_of_range_class (boxes : List Box) (best : Box)
    (hsel : selectBox boxes = some best) (hcls : 9 ≤ best.cls) :
    (detect (Except.ok boxes)).disease_type = some "unknown_disease" ∧
    (detect (Except.ok boxes)).treatment_recommendation
      = "Consult agricultural expert for treatment advice." ∧
    (detect (Except.ok boxes)).severity_level = some "Unknown" := by
  have hname := map_class_to_disease_of_ge hcls
  have hlow : pyLower "unknown_disease" = "unknown_disease" := by decide
  have hinfo : disease_info "unknown_disease" = none := by decide
  have hne : ("unknown_disease" != "healthy") = true := by decide
  simp [detect, interpret, hsel, hname, hlow, hinfo, hne]

/-- Witness for C4 at a singleton list with the out-of-range class id 42. -/
theorem out_of_range_class_witness :
    (detect (Except.ok [({ conf := 6/10, cls := 42 } : Box)])).disease_type
      = some "unknown_disease" ∧
    (detect (Except.ok [({ conf := 6/10, cls := 42 } : Box)])).treatment_recommendation
      = "Consult agricultural expert for treatment advice." ∧
    (detect (Except.ok [({ conf := 6/10, cls := 42 } : Box)])).severity_level
      = some "Unknown" :=
  out_of_range_class _ _ rfl (by norm_num)

/-- C3: for every input whose boxes (if any) carry confidences in [0,1]
(the detector's guarantee), the returned record satisfies: severity_level
is none iff disease_type is none iff disease_detected is false, and the
confidence lies in [0,1]. -/
theorem record_invariant (input : Except String (List Box))
    (hconf : ∀ boxes, input = Except.ok boxes → ∀ b ∈ boxes, 0 ≤ b.conf ∧ b.conf ≤ 1) :
    ((detect input).severity_level = none ↔ (detect input).disease_type = none) ∧
    ((detect input).disease_type = none ↔ (detect input).disease_detected = false) ∧
    0 ≤ (detect input).confidence ∧ (detect input).confidence ≤ 1 := by
  cases input with
  | error msg =>
    refine ⟨by simp [detect, create_error_result], by simp [detect, create_error_result], ?_, ?_⟩ <;>
      simp [detect, create_error_result]
  | ok boxes =>
    cases hsel : selectBox boxes with
    | none =>
      refine ⟨by simp [detect, interpret, hsel], by simp [detect, interpret, hsel], ?_, ?_⟩ <;>
        norm_num [detect, interpret, hsel]
    | some best =>
      have hb := hconf boxes rfl best (selectBox_mem hsel)
      by_cases hd : pyLower (map_class_to_disease best.cls) = "healthy"
      · have hbne : (pyLower (map_class_to_disease best.cls) != "healthy") = false := by
          simp [hd]
        refine ⟨by simp [detect, interpret, hsel, hbne],
          by simp [detect, interpret, hsel, hbne], ?_, ?_⟩
        · simpa [detect, interpret, hsel] using hb.1
        · simpa [detect, interpret, hsel] using hb.2
      · have hbne : (pyLower (map_class_to_disease best.cls) != "healthy") = true := by
          simp [bne_iff_ne, hd]
        refine ⟨by simp [detect, interpret, hsel, hbne],
          by simp [detect, interpret, hsel, hbne], ?_, ?_⟩
        · simpa [detect, interpret, hsel] using hb.1
        · simpa [detect, interpret, hsel] using hb.2

/-- Witness for C3 at a singleton class-2 box of confidence 1/2. -/
theorem record_invariant_witness :
    ((detect (Except.ok [({ conf := 1/2, cls := 2 } : Box)])).severity_level = none ↔
      (detect (Except.ok [({ conf := 1/2, cls := 2 } : Box)])).disease_type = none) ∧
    ((detect (Except.ok [({ conf := 1/2, cls := 2 } : Box)])).disease_type = none ↔
      (detect (Except.ok [({ conf := 1/2, cls := 2 } : Box)])).disease_detected = false) ∧
    0 ≤ (detect (Except.ok [({ conf := 1/2, cls := 2 } : Box)])).confidence ∧
    (detect (Except.ok [({ conf := 1/2, cls := 2 } : Box)])).confidence ≤ 1 :=
  record_invariant (Except.ok [{ conf := 1/2, cls := 2 }]) (by
    intro boxes h b hbmem
    injection h with h2
    subst h2
    simp only [List.mem_singleton] at hbmem
    subst hbmem
    norm_num)

/-- C5: in the area-based variant, the severity percentage is
100 × box_area / image_area, and the tier is "Low" strictly below 10,
"Medium" from 10 (inclusive) up to 25 (exclusive), and "High" from 25 on. -/
theorem area_severity (b : ABox) (imgH imgW : ℚ) :
    (mkDetection b imgH imgW).severity_percentage
      = 100 * ((b.x2 - b.x1) * (b.y2 - b.y1)) / (imgH * imgW) ∧
    ((mkDetection b imgH imgW).severity_percentage < 10 →
      (mkDetection b imgH imgW).severity_level = "Low") ∧
    (10 ≤ (mkDetection b imgH imgW).severity_percentage →
      (mkDetection b imgH imgW).severity_percentage < 25 →
      (mkDetection b imgH imgW).severity_level = "Medium") ∧
    (25 ≤ (mkDetection b imgH imgW).severity_percentage →
      (mkDetection b imgH imgW).severity_level = "High") := by
  refine ⟨?_, ?_, ?_, ?_⟩
  · show severity_percentage b imgH imgW = _
    rw [severity_percentage]
    ring
  · intro h
    have h' : severity_percentage b imgH imgW < 10 := h
    show severity_level_of (severity_percentage b imgH imgW) = "Low"
    rw [severity_level_of, if_pos h']
  · intro h1 h2
    have h1' : 10 ≤ severity_percentage b imgH imgW := h1
    have h2' : severity_percentage b imgH imgW < 25 := h2
    show severity_level_of (severity_percentage b imgH imgW) = "Medium"
    rw [severity_level_of, if_neg (not_lt.mpr h1'), if_pos h2']
  · intro h
    have h' : 25 ≤ severity_percentage b imgH imgW := h
    show severity_level_of (severity_percentage b imgH imgW) = "High"
    rw [severity_level_of, if_neg (not_lt.mpr (by linarith)),
      if_neg (not_lt.mpr h')]

/-- Witness for C5: on a 10 × 10 image, a 5 × 2 box (exactly 10% of the
area) is tiered "Medium" and a 5 × 5 box (exactly 25%) is tiered "High". -/
theorem area_severity_witness :
    (mkDetection { x1 := 0, y1 := 0, x2 := 5, y2 := 2, conf := 9/10, cls := 3 }
      10 10).severity_level = "Medium" ∧
    (mkDetection { x1 := 0, y1 := 0, x2 := 5, y2 := 5, conf := 9/10, cls := 3 }
      10 10).severity_level = "High" := by
  constructor
  · exact (area_severity _ 10 10).2.2.1
      (by norm_num [mkDetection, severity_percentage])
      (by norm_num [mkDetection, severity_percentage])
  · exact (area_severity _ 10 10).2.2.2
      (by norm_num [mkDetection, severity_percentage])

/-- C10: in the area-based variant, a class id at or beyond the length of
`class_names` yields the class name "class_<id>" (not "unknown_disease"),
and the detection is marked diseased, the comparison with "healthy" being
case-sensitive and necessarily false on such a name. -/
theorem out_of_range_area_class (b : ABox) (imgH imgW : ℚ)
    (hcls : class_names.length ≤ b.cls) :
    (mkDetection b imgH imgW).class_name = "class_" ++ toString b.cls ∧
    (mkDetection b imgH imgW).class_name ≠ "unknown_disease" ∧
    (mkDetection b imgH imgW).is_diseased = true := by
  have hname : className b.cls = "class_" ++ toString b.cls := by
    rw [className, dif_neg (not_lt.mpr hcls)]
  refine ⟨?_, ?_, ?_⟩
  · show className b.cls = _
    exact hname
  · show className b.cls ≠ _
    rw [hname]
    exact class_prepend_ne_unknown _
  · show (className b.cls != "healthy") = true
    rw [hname]
    exact bne_iff_ne.mpr (class_prepend_ne_healthy _)

/-- Witness for C10 at class id 12 (the name list has 10 entries). -/
theorem out_of_range_area_class_witness :
    (mkDetection { x1 := 0, y1 := 0, x2 := 1, y2 := 1, conf := 1/2, cls := 12 }
      10 10).class_name = "class_" ++ toString (12 : Nat) ∧
    (mkDetection { x1 := 0, y1 := 0, x2 := 1, y2 := 1, conf := 1/2, cls := 12 }
      10 10).class_name ≠ "unknown_disease" ∧
    (mkDetection { x1 := 0, y1 := 0, x2 := 1, y2 := 1, conf := 1/2, cls := 12 }
      10 10).is_diseased = true :=
  out_of_range_area_class _ 10 10 (by decide)

/-- C8 counterexample: on the singleton list with class id 42, the returned
severity_level is some "Unknown", which is none of the four claimed enum
values none / "Low" / "Medium" / "High". -/
theorem severity_enum_counterexample :
    (detect (Except.ok [({ conf := 1/2, cls := 42 } : Box)])).severity_level
      = some "Unknown" ∧
    ¬ ((detect (Except.ok [({ conf := 1/2, cls := 42 } : Box)])).severity_level = none ∨
      (detect (Except.ok [({ conf := 1/2, cls := 42 } : Box)])).severity_level = some "Low" ∨
      (detect (Except.ok [({ conf := 1/2, cls := 42 } : Box)])).severity_level = some "Medium" ∨
      (detect (Except.ok [({ conf := 1/2, cls := 42 } : Box)])).severity_level = some "High") := by
  decide

/-- C8 (amended): for every input, severity_level is none or one of "Low",
"Medium", "High", "Unknown" — the fifth value arising exactly on the
unknown-disease fallback of the catalog lookup. -/
theorem severity_enum_amended (input : Except String (List Box)) :
    (detect input).severity_level = none ∨
    (detect input).severity_level = some "Low" ∨
    (detect input).severity_level = some "Medium" ∨
    (detect input).severity_level = some "High" ∨
    (detect input).severity_level = some "Unknown" := by
  cases input with
  | error msg =>
    left
    simp [detect, create_error_result]
  | ok boxes =>
    cases hsel : selectBox boxes with
    | none =>
      left
      simp [detect, interpret, hsel]
    | some best =>
      by_cases hd : pyLower (map_class_to_disease best.cls) = "healthy"
      · left
        have hbne : (pyLower (map_class_to_disease best.cls) != "healthy") = false := by
          simp [hd]
        simp [detect, interpret, hsel, hbne]
      · have hbne : (pyLower (map_class_to_disease best.cls) != "healthy") = true := by
          simp [bne_iff_ne, hd]
        have hsev : (detect (Except.ok boxes)).severity_level
            = some (((disease_info (pyLower (map_class_to_disease best.cls))).map
                Prod.snd).getD "Unknown") := by
          simp [detect, interpret, hsel, hbne]
        rcases disease_info_snd_of_ne_healthy hd with h | h | h | h
        · right; right; left
          rw [hsev, h]
        · right; right; right; left
          rw [hsev, h]
        · right; left
          rw [hsev, h]
        · right; right; right; right
          rw [hsev, h]

end Agro
